import Mathlib

/-!
Verification development for the Arkham AI frontend (a React/TypeScript
supply-chain demo).  The definitions below are a shallow embedding of the
data model and the state-updating logic of `src/App.tsx`,
`src/frontend/DashboardPage.tsx`, `src/frontend/constants.ts` and
`src/frontend/services/perplexityService.ts`.  Numbers are modelled as
rationals; JavaScript's `||` on numbers (which treats `0` as falsy) and on
optional values is modelled explicitly; fallible backend calls are modelled
as an outcome type covering a thrown error and an arbitrary response object.
-/

/-! ## JavaScript semantics helpers -/

/-- JavaScript `x || d` for numbers: `x` is falsy exactly when it is zero. -/
def jsOrNum (x d : ℚ) : ℚ := if x = 0 then d else x

/-- JavaScript `x || d` where `x` is a possibly-absent number
(`undefined` and `0` are both falsy). -/
def jsOrOpt (o : Option ℚ) (d : ℚ) : ℚ :=
  match o with
  | none => d
  | some v => if v = 0 then d else v

/-- JavaScript `a || b` where both operands are possibly-absent numbers;
the result is "absent" when both are falsy (used for chains `a || b || c`). -/
def jsOrChain (a b : Option ℚ) : Option ℚ :=
  match a with
  | none => b
  | some v => if v = 0 then b else some v

/-- JavaScript `s || d` for a possibly-absent string (`""` is falsy). -/
def jsOrStr (o : Option String) : Option String :=
  match o with
  | none => none
  | some s => if s = "" then none else some s

/-- `s.slice(0, n)` on a string: the first `n` characters. -/
def jsSlice (s : String) (n : ℕ) : String := ⟨s.data.take n⟩

/-- `s.replace(/\s/g, '')`: remove every whitespace character. -/
def stripWhitespace (s : String) : String := ⟨s.data.filter (fun c => !c.isWhitespace)⟩

/-- `s.includes(sub)`: substring containment. -/
def jsIncludes (s sub : String) : Bool :=
  s.data.tails.any (fun t => sub.data.isPrefixOf t)

/-- `s.split(',')[0]`: the text before the first comma (the string itself
when it has no comma). -/
def beforeComma (s : String) : String := (s.splitOn ",").headD s

/-! ## Data model (`src/types.ts`) -/

structure Port where
  id : String
  name : String
deriving DecidableEq, Repr

structure Route where
  id : String
  name : String
  origin : Port
  destination : Port
  stops : List Port
  timeDeltaDays : Int
  costDeltaUSD : Int
deriving DecidableEq, Repr

structure Shipment where
  id : String
  contents : String
  origin : Port
  destination : Port
  currentRouteId : String
  eta : ℕ
deriving DecidableEq, Repr

structure DisruptionEvent where
  name : String
  description : String
deriving DecidableEq, Repr

structure RiskFactors where
  congestion : ℚ
  tariffs : ℚ
  unrest : ℚ
deriving DecidableEq, Repr

structure RiskEntry where
  overall : ℚ
  factors : RiskFactors
deriving DecidableEq, Repr

/-- The dashboard's `riskProfile` object: route id ↦ risk entry, with
JavaScript-object update semantics (replace in place, append when new). -/
abbrev RiskProfile := List (String × RiskEntry)

structure EventLog where
  message : String
  timestamp : ℕ
deriving DecidableEq, Repr

structure UserConfiguration where
  product : String
  origin : String
  destination : String
deriving DecidableEq, Repr

/-! ## Constants (`src/frontend/constants.ts`) -/

def taiwanPort : Port := ⟨"TWTPE", "Port of Taipei, Taiwan"⟩
def losAngelesPort : Port := ⟨"USLAX", "Port of Los Angeles, USA"⟩
def vietnamPort : Port := ⟨"VNSGN", "Port of Ho Chi Minh City, Vietnam"⟩
def japanPort : Port := ⟨"JPTYO", "Port of Tokyo, Japan"⟩
def singaporePort : Port := ⟨"SGSIN", "Port of Singapore, Singapore"⟩
def shanghaiPort : Port := ⟨"CNSHA", "Port of Shanghai, China"⟩

def PRIMARY_ROUTE : Route :=
  { id := "TW-LA-DIRECT"
    name := "Primary: Taiwan -> Los Angeles"
    origin := taiwanPort
    destination := losAngelesPort
    stops := []
    timeDeltaDays := 0
    costDeltaUSD := 0 }

def ALTERNATIVE_ROUTES : List Route :=
  [ { id := "TW-VN-LA"
      name := "Alternative: Taiwan -> Vietnam -> Los Angeles"
      origin := taiwanPort
      destination := losAngelesPort
      stops := [vietnamPort]
      timeDeltaDays := 1
      costDeltaUSD := 15000 }
  , { id := "TW-JP-LA"
      name := "Alternative: Taiwan -> Japan -> Los Angeles"
      origin := taiwanPort
      destination := losAngelesPort
      stops := [japanPort]
      timeDeltaDays := 2
      costDeltaUSD := 25000 }
  , { id := "TW-SG-LA"
      name := "Alternative: Taiwan -> Singapore -> Los Angeles"
      origin := taiwanPort
      destination := losAngelesPort
      stops := [singaporePort]
      timeDeltaDays := 3
      costDeltaUSD := 18000 }
  , { id := "TW-SH-LA"
      name := "Alternative: Taiwan -> Shanghai -> Los Angeles"
      origin := taiwanPort
      destination := losAngelesPort
      stops := [shanghaiPort]
      timeDeltaDays := 2
      costDeltaUSD := 12000 } ]

def INITIAL_SHIPMENT : Shipment :=
  { id := "ARK-SC-123"
    contents := "100x Semiconductor Containers"
    origin := taiwanPort
    destination := losAngelesPort
    currentRouteId := PRIMARY_ROUTE.id
    eta := 14 }

def DISRUPTION_EVENTS : List DisruptionEvent :=
  [ ⟨"Port Congestion at Los Angeles",
     "Severe container backlog at Port of Los Angeles causing 5-7 day delays. Labor shortages and increased vessel traffic contributing to congestion."⟩
  , ⟨"Trade Route Tensions in South China Sea",
     "Increased military activity and diplomatic tensions affecting shipping lanes through the South China Sea. Vessels reporting longer transit times."⟩
  , ⟨"Weather Disruption - Typhoon Warning",
     "Typhoon forecast affecting shipping routes in the Western Pacific. Multiple ports temporarily closed, vessels rerouting to avoid severe weather."⟩
  , ⟨"Labor Strike at Major Port",
     "Port workers union strike affecting operations at multiple terminals. Delays expected for all vessels scheduled to dock in the next 48 hours."⟩
  , ⟨"Fuel Price Surge",
     "Sudden spike in marine fuel prices affecting shipping costs. Bunker fuel costs increased by 25%, impacting route economics."⟩
  , ⟨"Regulatory Changes - New Customs Requirements",
     "New customs documentation requirements announced. Additional processing time expected at destination ports, potential for delays."⟩
  , ⟨"Cyber Attack on Port Systems",
     "Cybersecurity incident affecting port management systems. Operations slowed while systems are restored, causing delays."⟩
  , ⟨"Bridge Closure - Major Shipping Lane",
     "Critical bridge closure affecting access to major port. Alternative routes required, adding transit time and costs."⟩ ]

/-- `getRandomDisruptionEvent` with `Math.random()`'s value `r` made
explicit: `DISRUPTION_EVENTS[Math.floor(r * DISRUPTION_EVENTS.length)]`,
where an out-of-bounds array index yields `undefined` (`none`). -/
def getRandomDisruptionEvent (r : ℚ) : Option DisruptionEvent :=
  let i : Int := ⌊r * (DISRUPTION_EVENTS.length : ℚ)⌋
  if 0 ≤ i then DISRUPTION_EVENTS.get? i.toNat else none

/-! ## `src/App.tsx`: event history and pages -/

/-- `addEvent` in `App.tsx`:
`setEventHistory(prev => [...prev, { message, timestamp: new Date() }])`,
with the clock reading passed explicitly. -/
def addEvent (history : List EventLog) (message : String) (now : ℕ) : List EventLog :=
  history ++ [⟨message, now⟩]

/-- `HistoryPage` renders `eventHistory.slice().reverse()`: a reversed copy,
leaving the history itself untouched. -/
def historyPageDisplayed (history : List EventLog) : List EventLog :=
  history.reverse

/-- `HistoryPage`'s `shipmentId`:
`userConfig ? 'ARK-SC-' + userConfig.product.slice(0,3).toUpperCase() : INITIAL_SHIPMENT.id`. -/
def historyShipmentId (userConfig : Option UserConfiguration) : String :=
  match userConfig with
  | some cfg => "ARK-SC-" ++ (jsSlice cfg.product 3).toUpper
  | none => INITIAL_SHIPMENT.id

/-! ## `DashboardPage`: derived values -/

def allRoutes : List Route := PRIMARY_ROUTE :: ALTERNATIVE_ROUTES

/-- `activeRoute`: `allRoutes.find(r => r.id === activeRouteId) || PRIMARY_ROUTE`. -/
def activeRoute (activeRouteId : String) : Route :=
  (allRoutes.find? (fun r => r.id == activeRouteId)).getD PRIMARY_ROUTE

/-- `personalizedShipment` in `DashboardPage.tsx`. -/
def personalizedShipment (userConfig : Option UserConfiguration) : Shipment :=
  match userConfig with
  | none => INITIAL_SHIPMENT
  | some cfg =>
    let originPort : Port := ⟨stripWhitespace (jsSlice cfg.origin 5).toUpper, cfg.origin⟩
    let destinationPort : Port := ⟨stripWhitespace (jsSlice cfg.destination 5).toUpper, cfg.destination⟩
    { INITIAL_SHIPMENT with
      id := "ARK-SC-" ++ (jsSlice cfg.product 3).toUpper
      contents := cfg.product
      origin := originPort
      destination := destinationPort }

/-! ## Backend call outcomes (`src/frontend/services/apiService.ts` consumers)

A backend call either throws (network / non-OK HTTP error) or resolves to a
parsed JSON object; the fields the dashboard reads are modelled with
`Option` for possibly-absent numbers. -/

inductive Call (α : Type) where
  | thrown : Call α
  | ok (resp : α) : Call α

structure AssessmentFactors where
  congestion : Option ℚ
  tariffs : Option ℚ
  political_unrest : Option ℚ
deriving DecidableEq, Repr

structure AssessmentBreakdown where
  port_congestion : Option ℚ
  trade_news : Option ℚ
  political : Option ℚ
deriving DecidableEq, Repr

/-- The `assessment` object of a `/api/routes/assess` response; an absent
`factors`/`breakdown` sub-object is modelled as one with all fields absent
(the code reads them only through `?.` and `|| {}`). -/
structure Assessment where
  overall_risk_score : Option ℚ
  factors : AssessmentFactors
  breakdown : AssessmentBreakdown
deriving DecidableEq, Repr

structure AssessResponse where
  success : Bool
  assessment : Option Assessment
deriving DecidableEq, Repr

/-- The guard `resp?.success && resp?.assessment`: the assessment the code
proceeds with, `none` when the call threw or the guard fails. -/
def assessGuard : Call AssessResponse → Option Assessment
  | .thrown => none
  | .ok resp => if resp.success then resp.assessment else none

/-- `risk_assessment` object of an optimized route. -/
structure OptRouteRA where
  overall_risk_score : Option ℚ
  factors : AssessmentFactors
  breakdown : AssessmentBreakdown
deriving DecidableEq, Repr

/-- One element of `optimized_routes` in a `/api/routes/optimize` response. -/
structure OptRoute where
  route_id : Option String
  waypoints : List String
  risk_assessment : Option OptRouteRA
  metrics_risk_score : Option ℚ
deriving DecidableEq, Repr

structure OptimizeResponse where
  success : Bool
  optimized_routes : Option (List OptRoute)
  recommendation : Option String
  optimization_recommendation : Option String
deriving DecidableEq, Repr

/-- The guard `optimizedRoutes?.success && optimizedRoutes?.optimized_routes`
(a present-but-empty array is truthy in JavaScript, so it passes). -/
def optimizeGuard : Call OptimizeResponse → Option (List OptRoute)
  | .thrown => none
  | .ok resp => if resp.success then resp.optimized_routes else none

/-! ## Risk-profile object operations -/

/-- First-match lookup, as JavaScript property access on the profile object. -/
def RiskProfile.lookup : RiskProfile → String → Option RiskEntry
  | [], _ => none
  | p :: ps, id => if p.1 = id then some p.2 else RiskProfile.lookup ps id

/-- `obj[id] = e`: replace the entry in place when the key exists, append
otherwise (JavaScript objects keep insertion order). -/
def RiskProfile.set : RiskProfile → String → RiskEntry → RiskProfile
  | [], id, e => [(id, e)]
  | p :: ps, id, e => if p.1 = id then (id, e) :: ps else p :: RiskProfile.set ps id e

/-- `Array.prototype.forEach`-style fold carrying the element index. -/
def foldIdx {β : Type} (f : RiskProfile → ℕ → β → RiskProfile) :
    RiskProfile → ℕ → List β → RiskProfile
  | rp, _, [] => rp
  | rp, i, b :: bs => foldIdx f (f rp i b) (i + 1) bs

/-- `ALTERNATIVE_ROUTES.indexOf(route)` / `findIndex(r => r.id === route.id)`
as used by the dashboard, returning `-1` when not found. -/
def findIndexById : List Route → String → Int
  | [], _ => -1
  | r :: rs, id =>
    if r.id = id then 0
    else
      let k := findIndexById rs id
      if k = -1 then -1 else k + 1

/-! ## `fetchInitialData` (`DashboardPage.tsx`, initial assessment) -/

/-- Primary-route entry written by the initial assessment: clamped backend
scores on success, the authored fallback `0.15 / (0.1, 0.08, 0.12)` on an
unsuccessful response or a thrown call. -/
def initialPrimaryEntry (c : Call AssessResponse) : RiskEntry :=
  match assessGuard c with
  | some a =>
    ⟨ max 0.1 (jsOrOpt a.overall_risk_score 0.1),
      ⟨ max 0.05 (jsOrOpt (jsOrChain a.factors.congestion a.breakdown.port_congestion) 0.1),
        max 0.05 (jsOrOpt (jsOrChain a.factors.tariffs a.breakdown.trade_news) 0.1),
        max 0.05 (jsOrOpt (jsOrChain a.factors.political_unrest a.breakdown.political) 0.1) ⟩ ⟩
  | none => ⟨0.15, ⟨0.1, 0.08, 0.12⟩⟩

/-- Alternative-route entry written by the initial assessment, for the route
at `indexOf` position `routeIndex`, with `Math.random()`'s value `rand`. -/
def initialAltEntry (routeIndex : Int) (c : Call AssessResponse) (rand : ℚ) : RiskEntry :=
  match assessGuard c with
  | some a =>
    let baseRisk := max 0.15 (jsOrOpt a.overall_risk_score 0.2)
    let adjustedRisk := baseRisk + (routeIndex : ℚ) * 0.06 + rand * 0.04
    let finalRisk := min 0.85 (max 0.2 adjustedRisk)
    ⟨ finalRisk,
      ⟨ max 0.1 (jsOrOpt (jsOrChain a.factors.congestion a.breakdown.port_congestion) (0.2 + (routeIndex : ℚ) * 0.05)),
        max 0.05 (jsOrOpt (jsOrChain a.factors.tariffs a.breakdown.trade_news) (0.1 + (routeIndex : ℚ) * 0.03)),
        max 0.1 (jsOrOpt (jsOrChain a.factors.political_unrest a.breakdown.political) (0.2 + (routeIndex : ℚ) * 0.04)) ⟩ ⟩
  | none =>
    ⟨ 0.25 + (routeIndex : ℚ) * 0.06,
      ⟨0.2 + (routeIndex : ℚ) * 0.05, 0.1 + (routeIndex : ℚ) * 0.03, 0.2 + (routeIndex : ℚ) * 0.04⟩ ⟩

/-- The "ensure all routes have risk scores" pass (a write happens only when
the entry is still absent, using the authored per-index fallbacks). -/
def ensureEntry (rp : RiskProfile) (route : Route) : RiskProfile :=
  match rp.lookup route.id with
  | some _ => rp
  | none =>
    let routeIndex := findIndexById ALTERNATIVE_ROUTES route.id
    rp.set route.id
      (if route.id = PRIMARY_ROUTE.id then ⟨0.15, ⟨0.1, 0.08, 0.12⟩⟩
       else ⟨0.25 + (routeIndex : ℚ) * 0.06,
             ⟨0.2 + (routeIndex : ℚ) * 0.05, 0.1 + (routeIndex : ℚ) * 0.03,
              0.2 + (routeIndex : ℚ) * 0.04⟩⟩)

/-- The profile assembled by the initial route-assessment block when it runs
to completion: primary entry, one entry per alternative route (the per-route
loop), then the ensure pass over all routes. -/
def fetchInitialAssessedProfile (po : Call AssessResponse)
    (ao : ℕ → Call AssessResponse) (rand : ℕ → ℚ) : RiskProfile :=
  let rp1 := RiskProfile.set [] PRIMARY_ROUTE.id (initialPrimaryEntry po)
  let rp2 := foldIdx
    (fun rp i route =>
      rp.set route.id (initialAltEntry (findIndexById ALTERNATIVE_ROUTES route.id) (ao i) (rand i)))
    rp1 0 ALTERNATIVE_ROUTES
  allRoutes.foldl ensureEntry rp2

/-- Fallback profile of the route-assessment block's own `catch`. -/
def initialFallbackProfile : RiskProfile :=
  allRoutes.foldl
    (fun rp route =>
      if route.id = PRIMARY_ROUTE.id then
        rp.set route.id ⟨0.15, ⟨0.1, 0.08, 0.12⟩⟩
      else
        let altIndex := findIndexById ALTERNATIVE_ROUTES route.id
        rp.set route.id
          ⟨0.25 + (altIndex : ℚ) * 0.06,
           ⟨0.2 + (altIndex : ℚ) * 0.05, 0.1 + (altIndex : ℚ) * 0.03,
            0.2 + (altIndex : ℚ) * 0.04⟩⟩)
    []

/-- Mock profile written when the backend health check fails
(`overall: 0.1` and all factors `0.1` for every route). -/
def mockProfile : RiskProfile :=
  allRoutes.foldl (fun rp route => rp.set route.id ⟨0.1, ⟨0.1, 0.1, 0.1⟩⟩) []

/-- The risk profile `fetchInitialData` leaves in state: the mock profile
when the health check throws, the block-level fallback when the assessment
block itself throws, the assembled profile otherwise. -/
def fetchInitialDataProfile (healthOk : Bool) (routesBlockThrew : Bool)
    (po : Call AssessResponse) (ao : ℕ → Call AssessResponse) (rand : ℕ → ℚ) : RiskProfile :=
  if healthOk then
    if routesBlockThrew then initialFallbackProfile
    else fetchInitialAssessedProfile po ao rand
  else mockProfile

/-! ## The 10-second polling effect (`DashboardPage.tsx`) -/

/-- Primary-route entry written by a poll tick on a successful assessment —
note: backend values are stored unclamped. -/
def pollPrimaryEntry (a : Assessment) : RiskEntry :=
  ⟨ jsOrOpt a.overall_risk_score 0.1,
    ⟨ jsOrOpt (jsOrChain a.factors.congestion a.breakdown.port_congestion) 0.1,
      jsOrOpt (jsOrChain a.factors.tariffs a.breakdown.trade_news) 0.1,
      jsOrOpt (jsOrChain a.factors.political_unrest a.breakdown.political) 0.1 ⟩ ⟩

/-- Alternative-route entry written by a poll tick on a successful
assessment (overall clamped into `[0.15, 0.9]`, factors unclamped). -/
def pollAltEntry (routeIndex : Int) (a : Assessment) (rand : ℚ) : RiskEntry :=
  let baseRisk := jsOrOpt a.overall_risk_score 0.2
  let adjustedRisk := baseRisk + (routeIndex : ℚ) * 0.05 + rand * 0.03
  let finalRisk := min 0.9 (max 0.15 adjustedRisk)
  ⟨ finalRisk,
    ⟨ jsOrOpt (jsOrChain a.factors.congestion a.breakdown.port_congestion) (0.2 + (routeIndex : ℚ) * 0.05),
      jsOrOpt (jsOrChain a.factors.tariffs a.breakdown.trade_news) (0.1 + (routeIndex : ℚ) * 0.02),
      jsOrOpt (jsOrChain a.factors.political_unrest a.breakdown.political) (0.2 + (routeIndex : ℚ) * 0.03) ⟩ ⟩

/-- The profile a poll tick stores: a copy of the current profile with the
primary and each alternative route overwritten when its re-assessment
succeeds (a failed or thrown re-assessment leaves that route's entry). -/
def pollProfile (rp : RiskProfile) (po : Call AssessResponse)
    (ao : ℕ → Call AssessResponse) (rand : ℕ → ℚ) : RiskProfile :=
  let rp1 :=
    match assessGuard po with
    | some a => rp.set PRIMARY_ROUTE.id (pollPrimaryEntry a)
    | none => rp
  foldIdx
    (fun acc i route =>
      match assessGuard (ao i) with
      | some a =>
        acc.set route.id (pollAltEntry (findIndexById ALTERNATIVE_ROUTES route.id) a (rand i))
      | none => acc)
    rp1 0 ALTERNATIVE_ROUTES

/-- The polling `useEffect`'s subscription: nothing when
`!userConfig || !isDisruptionTriggered`, otherwise a `setInterval` whose
delay and tick body are recorded. -/
structure IntervalSub where
  delayMs : ℕ
  body : RiskProfile → Call AssessResponse → (ℕ → Call AssessResponse) → (ℕ → ℚ) → RiskProfile

/-- `useEffect(() => { if (!userConfig || !isDisruptionTriggered) return;
const pollInterval = setInterval(..., 10000); ... })`. -/
def pollingEffect (userConfig : Option UserConfiguration) (isDisruptionTriggered : Bool) :
    Option IntervalSub :=
  if userConfig.isNone || !isDisruptionTriggered then none
  else some ⟨10000, pollProfile⟩

/-- The effect's cleanup (`return () => clearInterval(pollInterval)`):
whatever subscription existed is cleared, and nothing else is cancelled. -/
def pollingCleanup (_sub : Option IntervalSub) : Option IntervalSub := none

/-! ## `triggerDisruption` (`DashboardPage.tsx`) -/

/-- Frontend route matched to a backend optimized route:
first by `route_id`, then by the waypoint heuristics. -/
def wpMatchesStop (wp stopName : String) : Bool :=
  let wpName := wp.toLower
  let sName := stopName.toLower
  jsIncludes wpName (beforeComma sName) ||
  jsIncludes sName (beforeComma wpName) ||
  (jsIncludes wpName "vietnam" && jsIncludes sName "vietnam") ||
  (jsIncludes wpName "japan" && jsIncludes sName "tokyo") ||
  (jsIncludes wpName "singapore" && jsIncludes sName "singapore") ||
  (jsIncludes wpName "shanghai" && jsIncludes sName "shanghai")

def matchRouteByWaypoints (waypoints : List String) : Option Route :=
  allRoutes.find? (fun fr =>
    let frontendStops := fr.stops
    if waypoints.length = 0 && frontendStops.length = 0 then
      fr.id == PRIMARY_ROUTE.id
    else if waypoints.length = frontendStops.length then
      waypoints.any (fun wp => frontendStops.any (fun st => wpMatchesStop wp st.name))
    else false)

def matchingFrontendRoute (r : OptRoute) : Option Route :=
  match (match r.route_id with
         | some rid => allRoutes.find? (fun fr => fr.id == rid)
         | none => none) with
  | some fr => some fr
  | none => matchRouteByWaypoints r.waypoints

/-- `matchingFrontendRoute?.id || route.route_id || 'route-' + index`. -/
def optRouteTargetId (r : OptRoute) (index : ℕ) : String :=
  match jsOrStr ((matchingFrontendRoute r).map Route.id) with
  | some id => id
  | none =>
    match jsOrStr r.route_id with
    | some id => id
    | none => "route-" ++ toString index

/-- Entry written for a backend optimized route at `forEach` index `index`,
with `Math.random()`'s value `rand`. -/
def optRouteEntry (r : OptRoute) (index : ℕ) (rand : ℚ) : RiskEntry :=
  let breakdown := match r.risk_assessment with
    | some ra => ra.breakdown
    | none => ⟨none, none, none⟩
  let raFactors := match r.risk_assessment with
    | some ra => ra.factors
    | none => ⟨none, none, none⟩
  let riskScore :=
    jsOrOpt (jsOrChain r.metrics_risk_score
              (match r.risk_assessment with
               | some ra => ra.overall_risk_score
               | none => none))
      (0.3 + (index : ℚ) * 0.05)
  let baseRisk : ℚ := 0.3
  let routeSpecificRisk := baseRisk + (index : ℚ) * 0.08 + rand * 0.1
  let finalRisk := min 0.9 (max 0.2 (jsOrNum riskScore routeSpecificRisk))
  ⟨ finalRisk,
    ⟨ jsOrOpt (jsOrChain raFactors.congestion breakdown.port_congestion) (0.2 + (index : ℚ) * 0.05),
      jsOrOpt (jsOrChain raFactors.tariffs breakdown.trade_news) (0.1 + (index : ℚ) * 0.03),
      jsOrOpt (jsOrChain raFactors.political_unrest breakdown.political) (0.2 + (index : ℚ) * 0.04) ⟩ ⟩

/-- The profile stored by the optimize-success branch: one write per backend
route into a copy of the (stale closure) profile, then the primary entry —
when present — raised to at least `0.75`. -/
def optimizeSuccessProfile (rp : RiskProfile) (routes : List OptRoute) (rand : ℕ → ℚ) :
    RiskProfile :=
  let rp1 := foldIdx
    (fun acc index r => acc.set (optRouteTargetId r index) (optRouteEntry r index (rand index)))
    rp 0 routes
  match rp1.lookup PRIMARY_ROUTE.id with
  | some e => rp1.set PRIMARY_ROUTE.id ⟨max 0.75 e.overall, e.factors⟩
  | none => rp1

def alt0Id : String := (ALTERNATIVE_ROUTES.getD 0 PRIMARY_ROUTE).id
def alt1Id : String := (ALTERNATIVE_ROUTES.getD 1 PRIMARY_ROUTE).id

/-- Profile stored when the optimize call fails or returns no usable routes:
hardcoded entries for the first two alternatives over the closure profile. -/
def optimizeFallbackProfile (rp : RiskProfile) : RiskProfile :=
  (rp.set alt0Id ⟨0.32, ⟨0.2, 0.1, 0.2⟩⟩).set alt1Id ⟨0.45, ⟨0.4, 0.1, 0.3⟩⟩

/-- Profile stored by `triggerDisruption`'s outer `catch`. -/
def disruptionCatchProfile (rp : RiskProfile) : RiskProfile :=
  (rp.set PRIMARY_ROUTE.id ⟨0.78, ⟨0.3, 0.9, 0.5⟩⟩).set alt0Id ⟨0.32, ⟨0.2, 0.1, 0.2⟩⟩

/-- The successive `setRiskProfile` arguments of `triggerDisruption`'s
normal path.  Crucially, every one of them is built by spreading the
profile captured by the callback's closure (`{ ...riskProfile }`), not the
state left by the previous `setRiskProfile`. -/
def triggerDisruptionSets (rp : RiskProfile) (po : Call AssessResponse)
    (oo : Call OptimizeResponse) (rand : ℕ → ℚ) : List RiskProfile :=
  let assessSets : List RiskProfile :=
    match po with
    | .ok resp =>
      match (if resp.success then resp.assessment else none) with
      | some a =>
        [rp.set PRIMARY_ROUTE.id
          ⟨ jsOrOpt a.overall_risk_score 0.78,
            ⟨ jsOrOpt (jsOrChain a.factors.congestion a.breakdown.port_congestion) 0.3,
              jsOrOpt (jsOrChain a.factors.tariffs a.breakdown.trade_news) 0.9,
              jsOrOpt (jsOrChain a.factors.political_unrest a.breakdown.political) 0.5 ⟩ ⟩]
      | none => []
    | .thrown => [rp.set PRIMARY_ROUTE.id ⟨0.78, ⟨0.3, 0.9, 0.5⟩⟩]
  let optimizeSets : List RiskProfile :=
    match optimizeGuard oo with
    | some routes => [optimizeSuccessProfile rp routes rand]
    | none => [optimizeFallbackProfile rp]
  assessSets ++ optimizeSets

/-- The risk profile left in state after `triggerDisruption` finishes:
React applies the `setRiskProfile` calls in order, so the last stored value
wins; when an error escapes to the outer `catch`, its profile is stored
last. -/
def triggerDisruptionProfile (rp : RiskProfile) (po : Call AssessResponse)
    (oo : Call OptimizeResponse) (rand : ℕ → ℚ) (outerThrew : Bool) : RiskProfile :=
  if outerThrew then disruptionCatchProfile rp
  else (triggerDisruptionSets rp po oo rand).getLastD rp

/-! ## Route selection at the end of `triggerDisruption` -/

/-- `riskProfile[route.id]?.overall || 1.0` — the risk number the sort uses. -/
def sortRisk (rp : RiskProfile) (id : String) : ℚ :=
  jsOrOpt ((rp.lookup id).map RiskEntry.overall) 1

/-- The claim's reading of the same number: the recorded overall risk, with
a route that has no recorded risk treated as risk `1.0`. -/
def recordedRiskOrOne (rp : RiskProfile) (id : String) : ℚ :=
  match rp.lookup id with
  | some e => e.overall
  | none => 1

/-- `allRoutes.map(route => ({route, risk})).sort((a, b) => a.risk - b.risk)`
(JavaScript's sort is stable; a stable ascending sort is merge sort). -/
def sortedRouteRisks (rp : RiskProfile) : List (Route × ℚ) :=
  (allRoutes.map (fun r => (r, sortRisk rp r.id))).mergeSort
    (fun a b => decide (a.2 ≤ b.2))

/-- `routeRisks.find(r => r.route.id !== PRIMARY_ROUTE.id)?.route || ALTERNATIVE_ROUTES[0]`. -/
def bestAlternative (rp : RiskProfile) : Route :=
  (((sortedRouteRisks rp).find? (fun p => !(p.1.id == PRIMARY_ROUTE.id))).map Prod.fst).getD
    (ALTERNATIVE_ROUTES.getD 0 PRIMARY_ROUTE)

/-- The active-route id after the handler's final
`if (bestAlternative && bestAlternative.id !== activeRouteId) setActiveRouteId(...)`. -/
def activeRouteIdAfterDisruption (rp : RiskProfile) (activeRouteId : String) : String :=
  if (bestAlternative rp).id ≠ activeRouteId then (bestAlternative rp).id else activeRouteId

/-! ## `getPerplexityAnalysis` (`src/frontend/services/perplexityService.ts`) -/

structure AgentResponse where
  success : Bool
  response : Option String
deriving DecidableEq, Repr

/-- The value the `try` block settles on: `some` when
`response.success && response.response` is truthy, `none` when the call
threw or the guard failed (the code then throws into its own `catch`). -/
def agentAnswer : Call AgentResponse → Option String
  | .thrown => none
  | .ok resp =>
    if resp.success then
      match resp.response with
      | some s => if s = "" then none else some s
      | none => none
    else none

def MOCK_RECOMMENDATION : String :=
  "Based on the analysis, I recommend selecting the alternative route with the lowest risk score (32%). This route provides the best balance between risk reduction and minimal time impact."

/-- `getPerplexityAnalysis`: backend agent first; on failure the direct
Perplexity call when a key is configured, the canned recommendation
otherwise.  `directResult` stands for `getDirectPerplexityAnalysis(prompt)`. -/
def getPerplexityAnalysis (agent : Call AgentResponse) (apiKey : Option String)
    (directResult : String) : String :=
  match agentAnswer agent with
  | some s => s
  | none =>
    match jsOrStr apiKey with
    | some _ => directResult
    | none => MOCK_RECOMMENDATION

/-! ## Range predicates for the risk-value invariant -/

/-- A risk value in the closed interval `[0, 1]`. -/
def valIn01 (x : ℚ) : Prop := 0 ≤ x ∧ x ≤ 1

/-- All four numbers of a risk entry lie in `[0, 1]`. -/
def entryInUnit (e : RiskEntry) : Prop :=
  valIn01 e.overall ∧ valIn01 e.factors.congestion ∧
  valIn01 e.factors.tariffs ∧ valIn01 e.factors.unrest

/-- Every entry of the profile satisfies `P`. -/
def ProfileAll (P : RiskEntry → Prop) (rp : RiskProfile) : Prop :=
  ∀ p ∈ rp, P p.2

/-- A possibly-absent backend number that, when present, lies in `[0, 1]`. -/
def OptIn01 (o : Option ℚ) : Prop := ∀ v, o = some v → valIn01 v

/-- Every numeric field of a backend assessment lies in `[0, 1]`. -/
def assessmentInUnit (a : Assessment) : Prop :=
  OptIn01 a.overall_risk_score ∧
  OptIn01 a.factors.congestion ∧ OptIn01 a.factors.tariffs ∧ OptIn01 a.factors.political_unrest ∧
  OptIn01 a.breakdown.port_congestion ∧ OptIn01 a.breakdown.trade_news ∧ OptIn01 a.breakdown.political

/-- Whenever the assess call produces an assessment the code proceeds with,
its numbers lie in `[0, 1]`. -/
def assessCallInUnit (c : Call AssessResponse) : Prop :=
  ∀ a, assessGuard c = some a → assessmentInUnit a

/-- Every numeric field of a backend optimized route lies in `[0, 1]`. -/
def optRouteInUnit (r : OptRoute) : Prop :=
  OptIn01 r.metrics_risk_score ∧
  ∀ ra, r.risk_assessment = some ra →
    OptIn01 ra.overall_risk_score ∧
    OptIn01 ra.factors.congestion ∧ OptIn01 ra.factors.tariffs ∧ OptIn01 ra.factors.political_unrest ∧
    OptIn01 ra.breakdown.port_congestion ∧ OptIn01 ra.breakdown.trade_news ∧ OptIn01 ra.breakdown.political

/-- Whenever the optimize call produces a usable route list, it has at most
five routes (the request asks for `max_routes = 5`) and every route's
numbers lie in `[0, 1]`. -/
def optimizeCallBounded (oo : Call OptimizeResponse) : Prop :=
  ∀ routes, optimizeGuard oo = some routes →
    routes.length ≤ 5 ∧ ∀ r ∈ routes, optRouteInUnit r

/-! ## Basic lemmas on profile operations -/

theorem lookup_set_self (rp : RiskProfile) (id : String) (e : RiskEntry) :
    (rp.set id e).lookup id = some e := by
  induction rp with
  | nil => simp [RiskProfile.set, RiskProfile.lookup]
  | cons p ps ih =>
    by_cases h : p.1 = id <;>
      simp [RiskProfile.set, RiskProfile.lookup, h, ih]

theorem lookup_set_ne (rp : RiskProfile) (id id' : String) (e : RiskEntry)
    (h : id' ≠ id) : (rp.set id e).lookup id' = rp.lookup id' := by
  induction rp with
  | nil => simp [RiskProfile.set, RiskProfile.lookup, h, Ne.symm h]
  | cons p ps ih =>
    by_cases hp : p.1 = id
    · subst hp
      have hne : ¬ p.1 = id' := fun hh => h (hh.symm)
      simp [RiskProfile.set, RiskProfile.lookup, hne]
    · simp [RiskProfile.set, RiskProfile.lookup, hp, ih]

theorem lookup_isSome_set (rp : RiskProfile) (id id' : String) (e : RiskEntry)
    (h : (rp.lookup id').isSome) : ((rp.set id e).lookup id').isSome := by
  by_cases hid : id' = id
  · subst hid; simp [lookup_set_self]
  · rwa [lookup_set_ne rp id id' e hid]

theorem lookup_mem (rp : RiskProfile) (id : String) (e : RiskEntry)
    (h : rp.lookup id = some e) : ∃ q ∈ rp, q.2 = e := by
  induction rp with
  | nil => simp [RiskProfile.lookup] at h
  | cons p ps ih =>
    by_cases hp : p.1 = id
    · simp [RiskProfile.lookup, hp] at h
      exact ⟨p, by simp, h⟩
    · simp [RiskProfile.lookup, hp] at h
      obtain ⟨q, hq, hq2⟩ := ih h
      exact ⟨q, by simp [hq], hq2⟩

theorem profileAll_set {P : RiskEntry → Prop} {rp : RiskProfile} {id : String} {e : RiskEntry}
    (h : ProfileAll P rp) (he : P e) : ProfileAll P (rp.set id e) := by
  induction rp with
  | nil => intro p hp; simp [RiskProfile.set] at hp; simp [hp, he]
  | cons q qs ih =>
    by_cases hq : q.1 = id
    · intro p hp
      simp [RiskProfile.set, hq] at hp
      rcases hp with hp | hp
      · simp [hp, he]
      · exact h p (by simp [hp])
    · intro p hp
      simp [RiskProfile.set, hq] at hp
      rcases hp with hp | hp
      · exact h p (by simp [hp])
      · exact ih (fun x hx => h x (by simp [hx])) p hp

theorem foldIdx_invariant {β : Type} (P : RiskProfile → Prop)
    (f : RiskProfile → ℕ → β → RiskProfile) :
    ∀ (l : List β) (i0 : ℕ) (rp : RiskProfile), P rp →
      (∀ rp' i b, b ∈ l → i0 ≤ i → i < i0 + l.length → P rp' → P (f rp' i b)) →
      P (foldIdx f rp i0 l) := by
  intro l
  induction l with
  | nil => intro i0 rp h _; simpa [foldIdx] using h
  | cons b bs ih =>
    intro i0 rp h hstep
    simp only [foldIdx]
    apply ih (i0 + 1)
    · exact hstep rp i0 b (by simp) le_rfl (by simp) h
    · intro rp' i b' hb' hi1 hi2 hp
      exact hstep rp' i b' (by simp [hb']) (by omega) (by simp; omega) hp

theorem foldl_invariant {β : Type} (P : RiskProfile → Prop)
    (f : RiskProfile → β → RiskProfile) :
    ∀ (l : List β) (rp : RiskProfile), P rp →
      (∀ rp' b, b ∈ l → P rp' → P (f rp' b)) →
      P (l.foldl f rp) := by
  intro l
  induction l with
  | nil => intro rp h _; simpa using h
  | cons b bs ih =>
    intro rp h hstep
    simp only [List.foldl_cons]
    exact ih (f rp b) (hstep rp b (by simp) h)
      (fun rp' b' hb' hp => hstep rp' b' (by simp [hb']) hp)

/-! ## Lemmas about the JavaScript `||` helpers -/

theorem jsOrOpt_in01 {o : Option ℚ} {d : ℚ} (ho : OptIn01 o) (hd : valIn01 d) :
    valIn01 (jsOrOpt o d) := by
  cases o with
  | none => simpa [jsOrOpt] using hd
  | some v =>
    by_cases hv : v = 0
    · simpa [jsOrOpt, hv] using hd
    · simpa [jsOrOpt, hv] using ho v rfl

theorem jsOrChain_in01 {a b : Option ℚ} (ha : OptIn01 a) (hb : OptIn01 b) :
    OptIn01 (jsOrChain a b) := by
  cases a with
  | none => simpa [jsOrChain] using hb
  | some v =>
    by_cases hv : v = 0
    · simpa [jsOrChain, hv] using hb
    · intro w hw
      simp [jsOrChain, hv] at hw
      exact hw ▸ ha v rfl

theorem jsOrOpt_ne_zero {o : Option ℚ} {d : ℚ} (hd : d ≠ 0) : jsOrOpt o d ≠ 0 := by
  cases o with
  | none => simpa [jsOrOpt] using hd
  | some v =>
    by_cases hv : v = 0 <;> simp [jsOrOpt, hv, hd]

theorem optIn01_none : OptIn01 none := by intro v hv; cases hv

theorem valIn01_max {a b : ℚ} (ha : valIn01 a) (hb : valIn01 b) : valIn01 (max a b) :=
  ⟨le_trans ha.1 (le_max_left a b), max_le ha.2 hb.2⟩

theorem valIn01_clamp {lo hi x : ℚ} (h0 : 0 ≤ lo) (h1 : hi ≤ 1) (hlohi : lo ≤ hi) :
    valIn01 (min hi (max lo x)) := by
  constructor
  · exact le_trans h0 (le_min hlohi (le_trans (le_max_left lo x) (le_refl _)))
  · exact le_trans (min_le_left hi _) h1

/-! ## Concrete facts about the route constants -/

theorem findIndexById_alt_bounds :
    ∀ r ∈ ALTERNATIVE_ROUTES,
      0 ≤ findIndexById ALTERNATIVE_ROUTES r.id ∧ findIndexById ALTERNATIVE_ROUTES r.id ≤ 3 := by
  decide

theorem alt_ids_ne_primary : ∀ r ∈ ALTERNATIVE_ROUTES, r.id ≠ PRIMARY_ROUTE.id := by
  decide

theorem allRoutes_idx_cases :
    ∀ r ∈ allRoutes,
      r.id = PRIMARY_ROUTE.id ∨
      (0 ≤ findIndexById ALTERNATIVE_ROUTES r.id ∧ findIndexById ALTERNATIVE_ROUTES r.id ≤ 3) := by
  decide

/-! ## Per-entry range lemmas -/

theorem fallbackAltEntry_inUnit (z : Int) (hz0 : 0 ≤ z) (hz3 : z ≤ 3) :
    entryInUnit
      ⟨0.25 + (z : ℚ) * 0.06,
       ⟨0.2 + (z : ℚ) * 0.05, 0.1 + (z : ℚ) * 0.03, 0.2 + (z : ℚ) * 0.04⟩⟩ := by
  have h0 : (0 : ℚ) ≤ (z : ℚ) := by exact_mod_cast hz0
  have h3 : ((z : ℚ)) ≤ 3 := by exact_mod_cast hz3
  refine ⟨⟨?_, ?_⟩, ⟨?_, ?_⟩, ⟨?_, ?_⟩, ⟨?_, ?_⟩⟩ <;> nlinarith

theorem initialPrimaryEntry_inUnit (c : Call AssessResponse) (hc : assessCallInUnit c) :
    entryInUnit (initialPrimaryEntry c) := by
  rcases hg : assessGuard c with _ | a
  · simp only [initialPrimaryEntry, hg]
    exact ⟨⟨by norm_num, by norm_num⟩, ⟨by norm_num, by norm_num⟩,
      ⟨by norm_num, by norm_num⟩, ⟨by norm_num, by norm_num⟩⟩
  · have ha := hc a hg
    simp only [initialPrimaryEntry, hg]
    refine ⟨?_, ?_, ?_, ?_⟩
    · exact valIn01_max ⟨by norm_num, by norm_num⟩
        (jsOrOpt_in01 ha.1 ⟨by norm_num, by norm_num⟩)
    · exact valIn01_max ⟨by norm_num, by norm_num⟩
        (jsOrOpt_in01 (jsOrChain_in01 ha.2.1 ha.2.2.2.2.1) ⟨by norm_num, by norm_num⟩)
    · exact valIn01_max ⟨by norm_num, by norm_num⟩
        (jsOrOpt_in01 (jsOrChain_in01 ha.2.2.1 ha.2.2.2.2.2.1) ⟨by norm_num, by norm_num⟩)
    · exact valIn01_max ⟨by norm_num, by norm_num⟩
        (jsOrOpt_in01 (jsOrChain_in01 ha.2.2.2.1 ha.2.2.2.2.2.2) ⟨by norm_num, by norm_num⟩)

theorem initialAltEntry_inUnit (z : Int) (hz0 : 0 ≤ z) (hz3 : z ≤ 3)
    (c : Call AssessResponse) (hc : assessCallInUnit c) (rand : ℚ) :
    entryInUnit (initialAltEntry z c rand) := by
  have h0 : (0 : ℚ) ≤ (z : ℚ) := by exact_mod_cast hz0
  have h3 : ((z : ℚ)) ≤ 3 := by exact_mod_cast hz3
  rcases hg : assessGuard c with _ | a
  · simpa only [initialAltEntry, hg] using fallbackAltEntry_inUnit z hz0 hz3
  · have ha := hc a hg
    simp only [initialAltEntry, hg]
    refine ⟨valIn01_clamp (by norm_num) (by norm_num) (by norm_num), ?_, ?_, ?_⟩
    · exact valIn01_max ⟨by norm_num, by norm_num⟩
        (jsOrOpt_in01 (jsOrChain_in01 ha.2.1 ha.2.2.2.2.1) ⟨by nlinarith, by nlinarith⟩)
    · exact valIn01_max ⟨by norm_num, by norm_num⟩
        (jsOrOpt_in01 (jsOrChain_in01 ha.2.2.1 ha.2.2.2.2.2.1) ⟨by nlinarith, by nlinarith⟩)
    · exact valIn01_max ⟨by norm_num, by norm_num⟩
        (jsOrOpt_in01 (jsOrChain_in01 ha.2.2.2.1 ha.2.2.2.2.2.2) ⟨by nlinarith, by nlinarith⟩)

theorem pollPrimaryEntry_inUnit (a : Assessment) (ha : assessmentInUnit a) :
    entryInUnit (pollPrimaryEntry a) := by
  refine ⟨?_, ?_, ?_, ?_⟩
  · exact jsOrOpt_in01 ha.1 ⟨by norm_num, by norm_num⟩
  · exact jsOrOpt_in01 (jsOrChain_in01 ha.2.1 ha.2.2.2.2.1) ⟨by norm_num, by norm_num⟩
  · exact jsOrOpt_in01 (jsOrChain_in01 ha.2.2.1 ha.2.2.2.2.2.1) ⟨by norm_num, by norm_num⟩
  · exact jsOrOpt_in01 (jsOrChain_in01 ha.2.2.2.1 ha.2.2.2.2.2.2) ⟨by norm_num, by norm_num⟩

theorem pollAltEntry_inUnit (z : Int) (hz0 : 0 ≤ z) (hz3 : z ≤ 3)
    (a : Assessment) (ha : assessmentInUnit a) (rand : ℚ) :
    entryInUnit (pollAltEntry z a rand) := by
  have h0 : (0 : ℚ) ≤ (z : ℚ) := by exact_mod_cast hz0
  have h3 : ((z : ℚ)) ≤ 3 := by exact_mod_cast hz3
  refine ⟨valIn01_clamp (by norm_num) (by norm_num) (by norm_num), ?_, ?_, ?_⟩
  · exact jsOrOpt_in01 (jsOrChain_in01 ha.2.1 ha.2.2.2.2.1) ⟨by nlinarith, by nlinarith⟩
  · exact jsOrOpt_in01 (jsOrChain_in01 ha.2.2.1 ha.2.2.2.2.2.1) ⟨by nlinarith, by nlinarith⟩
  · exact jsOrOpt_in01 (jsOrChain_in01 ha.2.2.2.1 ha.2.2.2.2.2.2) ⟨by nlinarith, by nlinarith⟩

theorem optRouteEntry_inUnit (r : OptRoute) (hr : optRouteInUnit r)
    (index : ℕ) (hidx : index ≤ 4) (rand : ℚ) :
    entryInUnit (optRouteEntry r index rand) := by
  have h0 : (0 : ℚ) ≤ (index : ℚ) := by positivity
  have h4 : ((index : ℚ)) ≤ 4 := by exact_mod_cast hidx
  have hbd :
      OptIn01 (match r.risk_assessment with
               | some ra => ra.breakdown.port_congestion
               | none => none) ∧
      OptIn01 (match r.risk_assessment with
               | some ra => ra.breakdown.trade_news
               | none => none) ∧
      OptIn01 (match r.risk_assessment with
               | some ra => ra.breakdown.political
               | none => none) ∧
      OptIn01 (match r.risk_assessment with
               | some ra => ra.factors.congestion
               | none => none) ∧
      OptIn01 (match r.risk_assessment with
               | some ra => ra.factors.tariffs
               | none => none) ∧
      OptIn01 (match r.risk_assessment with
               | some ra => ra.factors.political_unrest
               | none => none) := by
    rcases hra : r.risk_assessment with _ | ra
    · exact ⟨optIn01_none, optIn01_none, optIn01_none, optIn01_none, optIn01_none, optIn01_none⟩
    · have h := hr.2 ra hra
      exact ⟨h.2.2.2.2.1, h.2.2.2.2.2.1, h.2.2.2.2.2.2, h.2.1, h.2.2.1, h.2.2.2.1⟩
  rcases hra : r.risk_assessment with _ | ra <;>
  · simp only [optRouteEntry, hra]
    rw [hra] at hbd
    refine ⟨valIn01_clamp (by norm_num) (by norm_num) (by norm_num), ?_, ?_, ?_⟩
    · exact jsOrOpt_in01 (jsOrChain_in01 hbd.2.2.2.1 hbd.1) ⟨by nlinarith, by nlinarith⟩
    · exact jsOrOpt_in01 (jsOrChain_in01 hbd.2.2.2.2.1 hbd.2.1) ⟨by nlinarith, by nlinarith⟩
    · exact jsOrOpt_in01 (jsOrChain_in01 hbd.2.2.2.2.2 hbd.2.2.1) ⟨by nlinarith, by nlinarith⟩

theorem disruptionAssessEntry_inUnit (a : Assessment) (ha : assessmentInUnit a) :
    entryInUnit
      ⟨jsOrOpt a.overall_risk_score 0.78,
       ⟨jsOrOpt (jsOrChain a.factors.congestion a.breakdown.port_congestion) 0.3,
        jsOrOpt (jsOrChain a.factors.tariffs a.breakdown.trade_news) 0.9,
        jsOrOpt (jsOrChain a.factors.political_unrest a.breakdown.political) 0.5⟩⟩ := by
  refine ⟨?_, ?_, ?_, ?_⟩
  · exact jsOrOpt_in01 ha.1 ⟨by norm_num, by norm_num⟩
  · exact jsOrOpt_in01 (jsOrChain_in01 ha.2.1 ha.2.2.2.2.1) ⟨by norm_num, by norm_num⟩
  · exact jsOrOpt_in01 (jsOrChain_in01 ha.2.2.1 ha.2.2.2.2.2.1) ⟨by norm_num, by norm_num⟩
  · exact jsOrOpt_in01 (jsOrChain_in01 ha.2.2.2.1 ha.2.2.2.2.2.2) ⟨by norm_num, by norm_num⟩

/-! ## Profile-level range lemmas -/

theorem profileAll_nil (P : RiskEntry → Prop) : ProfileAll P [] := by
  intro p hp; cases hp

theorem mockProfile_inUnit : ProfileAll entryInUnit mockProfile := by
  unfold mockProfile
  apply foldl_invariant (ProfileAll entryInUnit) _ _ _ (profileAll_nil _)
  intro rp' b _ hP
  exact profileAll_set hP ⟨⟨by norm_num, by norm_num⟩, ⟨by norm_num, by norm_num⟩,
    ⟨by norm_num, by norm_num⟩, ⟨by norm_num, by norm_num⟩⟩

theorem initialFallbackProfile_inUnit : ProfileAll entryInUnit initialFallbackProfile := by
  unfold initialFallbackProfile
  apply foldl_invariant (ProfileAll entryInUnit) _ _ _ (profileAll_nil _)
  intro rp' b hb hP
  by_cases hid : b.id = PRIMARY_ROUTE.id
  · simp only [if_pos hid]
    exact profileAll_set hP ⟨⟨by norm_num, by norm_num⟩, ⟨by norm_num, by norm_num⟩,
      ⟨by norm_num, by norm_num⟩, ⟨by norm_num, by norm_num⟩⟩
  · rcases allRoutes_idx_cases b hb with h | ⟨h0, h3⟩
    · exact absurd h hid
    · simp only [if_neg hid]
      exact profileAll_set hP (fallbackAltEntry_inUnit _ h0 h3)

theorem fetchInitialAssessedProfile_inUnit (po : Call AssessResponse)
    (hpo : assessCallInUnit po) (ao : ℕ → Call AssessResponse)
    (hao : ∀ i, assessCallInUnit (ao i)) (rand : ℕ → ℚ) :
    ProfileAll entryInUnit (fetchInitialAssessedProfile po ao rand) := by
  unfold fetchInitialAssessedProfile
  apply foldl_invariant
  · apply foldIdx_invariant
    · exact profileAll_set (profileAll_nil _) (initialPrimaryEntry_inUnit po hpo)
    · intro rp' i b hb _ _ hP
      exact profileAll_set hP
        (initialAltEntry_inUnit _ (findIndexById_alt_bounds b hb).1
          (findIndexById_alt_bounds b hb).2 _ (hao i) _)
  · intro rp' b hb hP
    unfold ensureEntry
    rcases hlk : rp'.lookup b.id with _ | e
    · simp only [hlk]
      by_cases hid : b.id = PRIMARY_ROUTE.id
      · simp only [if_pos hid]
        exact profileAll_set hP ⟨⟨by norm_num, by norm_num⟩, ⟨by norm_num, by norm_num⟩,
          ⟨by norm_num, by norm_num⟩, ⟨by norm_num, by norm_num⟩⟩
      · rcases allRoutes_idx_cases b hb with h | ⟨h0, h3⟩
        · exact absurd h hid
        · simp only [if_neg hid]
          exact profileAll_set hP (fallbackAltEntry_inUnit _ h0 h3)
    · simpa only [hlk] using hP

theorem fetchInitialDataProfile_inUnit (healthOk routesBlockThrew : Bool)
    (po : Call AssessResponse) (hpo : assessCallInUnit po)
    (ao : ℕ → Call AssessResponse) (hao : ∀ i, assessCallInUnit (ao i)) (rand : ℕ → ℚ) :
    ProfileAll entryInUnit (fetchInitialDataProfile healthOk routesBlockThrew po ao rand) := by
  unfold fetchInitialDataProfile
  by_cases h1 : healthOk
  · by_cases h2 : routesBlockThrew <;>
      simp only [h1, h2, if_pos, if_neg, if_true, if_false, Bool.false_eq_true]
    · exact initialFallbackProfile_inUnit
    · exact fetchInitialAssessedProfile_inUnit po hpo ao hao rand
  · simp only [h1, Bool.false_eq_true, if_false]
    exact mockProfile_inUnit

theorem pollProfile_inUnit (rp : RiskProfile) (hrp : ProfileAll entryInUnit rp)
    (po : Call AssessResponse) (hpo : assessCallInUnit po)
    (ao : ℕ → Call AssessResponse) (hao : ∀ i, assessCallInUnit (ao i)) (rand : ℕ → ℚ) :
    ProfileAll entryInUnit (pollProfile rp po ao rand) := by
  unfold pollProfile
  apply foldIdx_invariant
  · rcases hg : assessGuard po with _ | a
    · simpa only [hg] using hrp
    · simp only [hg]
      exact profileAll_set hrp (pollPrimaryEntry_inUnit a (hpo a hg))
  · intro rp' i b hb _ _ hP
    rcases hg : assessGuard (ao i) with _ | a
    · simpa only [hg] using hP
    · simp only [hg]
      exact profileAll_set hP
        (pollAltEntry_inUnit _ (findIndexById_alt_bounds b hb).1
          (findIndexById_alt_bounds b hb).2 a (hao i a hg) _)

theorem optimizeSuccessProfile_inUnit (rp : RiskProfile) (hrp : ProfileAll entryInUnit rp)
    (routes : List OptRoute) (hlen : routes.length ≤ 5)
    (hroutes : ∀ r ∈ routes, optRouteInUnit r) (rand : ℕ → ℚ) :
    ProfileAll entryInUnit (optimizeSuccessProfile rp routes rand) := by
  unfold optimizeSuccessProfile
  have h1 : ProfileAll entryInUnit
      (foldIdx
        (fun acc index r => acc.set (optRouteTargetId r index) (optRouteEntry r index (rand index)))
        rp 0 routes) := by
    apply foldIdx_invariant _ _ _ _ _ hrp
    intro rp' i b hb _ hlt hP
    exact profileAll_set hP (optRouteEntry_inUnit b (hroutes b hb) i (by omega) _)
  rcases hlk :
      (foldIdx
        (fun acc index r => acc.set (optRouteTargetId r index) (optRouteEntry r index (rand index)))
        rp 0 routes).lookup PRIMARY_ROUTE.id with _ | e
  · simpa only [hlk] using h1
  · simp only [hlk]
    have he : entryInUnit e := by
      obtain ⟨q, hq, hq2⟩ := lookup_mem _ _ _ hlk
      exact hq2 ▸ h1 q hq
    refine profileAll_set h1 ⟨⟨?_, ?_⟩, he.2⟩
    · exact le_trans (by norm_num) (le_max_left _ _)
    · exact max_le (by norm_num) he.1.2

theorem optimizeFallbackProfile_inUnit (rp : RiskProfile) (hrp : ProfileAll entryInUnit rp) :
    ProfileAll entryInUnit (optimizeFallbackProfile rp) := by
  unfold optimizeFallbackProfile
  refine profileAll_set (profileAll_set hrp ?_) ?_
  · exact ⟨⟨by norm_num, by norm_num⟩, ⟨by norm_num, by norm_num⟩,
      ⟨by norm_num, by norm_num⟩, ⟨by norm_num, by norm_num⟩⟩
  · exact ⟨⟨by norm_num, by norm_num⟩, ⟨by norm_num, by norm_num⟩,
      ⟨by norm_num, by norm_num⟩, ⟨by norm_num, by norm_num⟩⟩

theorem disruptionCatchProfile_inUnit (rp : RiskProfile) (hrp : ProfileAll entryInUnit rp) :
    ProfileAll entryInUnit (disruptionCatchProfile rp) := by
  unfold disruptionCatchProfile
  refine profileAll_set (profileAll_set hrp ?_) ?_
  · exact ⟨⟨by norm_num, by norm_num⟩, ⟨by norm_num, by norm_num⟩,
      ⟨by norm_num, by norm_num⟩, ⟨by norm_num, by norm_num⟩⟩
  · exact ⟨⟨by norm_num, by norm_num⟩, ⟨by norm_num, by norm_num⟩,
      ⟨by norm_num, by norm_num⟩, ⟨by norm_num, by norm_num⟩⟩

theorem triggerDisruptionSets_inUnit (rp : RiskProfile) (hrp : ProfileAll entryInUnit rp)
    (po : Call AssessResponse) (hpo : assessCallInUnit po)
    (oo : Call OptimizeResponse) (hoo : optimizeCallBounded oo) (rand : ℕ → ℚ) :
    ∀ s ∈ triggerDisruptionSets rp po oo rand, ProfileAll entryInUnit s := by
  intro s hs
  unfold triggerDisruptionSets at hs
  rw [List.mem_append] at hs
  rcases hs with hs | hs
  · rcases po with _ | resp
    · simp only [List.mem_singleton] at hs
      subst hs
      exact profileAll_set hrp ⟨⟨by norm_num, by norm_num⟩, ⟨by norm_num, by norm_num⟩,
        ⟨by norm_num, by norm_num⟩, ⟨by norm_num, by norm_num⟩⟩
    · by_cases hsucc : resp.success
      · rcases ha : resp.assessment with _ | a
        · simp [hsucc, ha] at hs
        · simp only [hsucc, ha, if_pos, if_true, List.mem_singleton] at hs
          subst hs
          have hginst : assessGuard (Call.ok resp) = some a := by
            simp [assessGuard, hsucc, ha]
          exact profileAll_set hrp (disruptionAssessEntry_inUnit a (hpo a hginst))
      · simp [hsucc] at hs
  · rcases hg : optimizeGuard oo with _ | routes
    · simp only [hg, List.mem_singleton] at hs
      subst hs
      exact optimizeFallbackProfile_inUnit rp hrp
    · simp only [hg, List.mem_singleton] at hs
      subst hs
      exact optimizeSuccessProfile_inUnit rp hrp routes (hoo routes hg).1 (hoo routes hg).2 _

theorem triggerDisruptionSets_last (rp : RiskProfile) (po : Call AssessResponse)
    (oo : Call OptimizeResponse) (rand : ℕ → ℚ) :
    (triggerDisruptionSets rp po oo rand).getLastD rp =
      match optimizeGuard oo with
      | some routes => optimizeSuccessProfile rp routes rand
      | none => optimizeFallbackProfile rp := by
  unfold triggerDisruptionSets
  rcases po with _ | resp
  · rcases hg : optimizeGuard oo with _ | routes <;> simp [hg, List.getLastD]
  · by_cases hsucc : resp.success
    · rcases ha : resp.assessment with _ | a <;>
        rcases hg : optimizeGuard oo with _ | routes <;>
        simp [hsucc, ha, hg, List.getLastD]
    · rcases hg : optimizeGuard oo with _ | routes <;> simp [hsucc, hg, List.getLastD]

theorem triggerDisruptionProfile_inUnit (rp : RiskProfile) (hrp : ProfileAll entryInUnit rp)
    (po : Call AssessResponse) (_hpo : assessCallInUnit po)
    (oo : Call OptimizeResponse) (hoo : optimizeCallBounded oo) (rand : ℕ → ℚ)
    (outerThrew : Bool) :
    ProfileAll entryInUnit (triggerDisruptionProfile rp po oo rand outerThrew) := by
  unfold triggerDisruptionProfile
  by_cases ho : outerThrew
  · simp only [ho, if_true]
    exact disruptionCatchProfile_inUnit rp hrp
  · simp only [ho, if_false, Bool.false_eq_true]
    rw [triggerDisruptionSets_last]
    rcases hg : optimizeGuard oo with _ | routes
    · exact optimizeFallbackProfile_inUnit rp hrp
    · exact optimizeSuccessProfile_inUnit rp hrp routes (hoo routes hg).1 (hoo routes hg).2 _

/-! ## Every stored overall risk value is nonzero

This justifies reasoning about the route-selection sort under the
hypothesis that recorded overall values are nonzero: the initial profile is
empty, and every write of the dashboard stores a nonzero overall value. -/

theorem clamp_ne_zero {hi lo x : ℚ} (h1 : 0 < lo) (h2 : lo ≤ hi) :
    min hi (max lo x) ≠ 0 := by
  have : 0 < min hi (max lo x) :=
    lt_min (lt_of_lt_of_le h1 h2) (lt_of_lt_of_le h1 (le_max_left lo x))
  exact ne_of_gt this

theorem max_ne_zero {c x : ℚ} (hc : 0 < c) : max c x ≠ 0 :=
  ne_of_gt (lt_of_lt_of_le hc (le_max_left c x))

theorem initialPrimaryEntry_overall_ne_zero (c : Call AssessResponse) :
    (initialPrimaryEntry c).overall ≠ 0 := by
  rcases hg : assessGuard c with _ | a <;> simp only [initialPrimaryEntry, hg]
  · norm_num
  · exact max_ne_zero (by norm_num)

theorem initialAltEntry_overall_ne_zero (z : Int) (hz0 : 0 ≤ z)
    (c : Call AssessResponse) (rand : ℚ) :
    (initialAltEntry z c rand).overall ≠ 0 := by
  have h0 : (0 : ℚ) ≤ (z : ℚ) := by exact_mod_cast hz0
  rcases hg : assessGuard c with _ | a <;> simp only [initialAltEntry, hg]
  · nlinarith
  · exact clamp_ne_zero (by norm_num) (by norm_num)

theorem pollPrimaryEntry_overall_ne_zero (a : Assessment) :
    (pollPrimaryEntry a).overall ≠ 0 :=
  jsOrOpt_ne_zero (by norm_num)

theorem pollAltEntry_overall_ne_zero (z : Int) (a : Assessment) (rand : ℚ) :
    (pollAltEntry z a rand).overall ≠ 0 :=
  clamp_ne_zero (by norm_num) (by norm_num)

theorem optRouteEntry_overall_ne_zero (r : OptRoute) (index : ℕ) (rand : ℚ) :
    (optRouteEntry r index rand).overall ≠ 0 := by
  rcases hra : r.risk_assessment with _ | ra <;> simp only [optRouteEntry, hra] <;>
    exact clamp_ne_zero (by norm_num) (by norm_num)

theorem fetchInitialDataProfile_overall_ne_zero (healthOk routesBlockThrew : Bool)
    (po : Call AssessResponse) (ao : ℕ → Call AssessResponse) (rand : ℕ → ℚ) :
    ProfileAll (fun e => e.overall ≠ 0)
      (fetchInitialDataProfile healthOk routesBlockThrew po ao rand) := by
  unfold fetchInitialDataProfile
  by_cases h1 : healthOk
  · by_cases h2 : routesBlockThrew <;>
      simp only [h1, h2, if_true, if_false, Bool.false_eq_true]
    · unfold initialFallbackProfile
      apply foldl_invariant (ProfileAll (fun e => e.overall ≠ 0)) _ _ _ (profileAll_nil _)
      intro rp' b hb hP
      by_cases hid : b.id = PRIMARY_ROUTE.id
      · simp only [if_pos hid]
        exact profileAll_set hP (by norm_num)
      · rcases allRoutes_idx_cases b hb with h | ⟨h0, h3⟩
        · exact absurd h hid
        · simp only [if_neg hid]
          have h0' : (0 : ℚ) ≤ ((findIndexById ALTERNATIVE_ROUTES b.id : Int) : ℚ) := by
            exact_mod_cast h0
          exact profileAll_set hP (by show _ ≠ (0:ℚ); nlinarith)
    · unfold fetchInitialAssessedProfile
      apply foldl_invariant
      · apply foldIdx_invariant
        · exact profileAll_set (profileAll_nil _) (initialPrimaryEntry_overall_ne_zero po)
        · intro rp' i b hb _ _ hP
          exact profileAll_set hP
            (initialAltEntry_overall_ne_zero _ (findIndexById_alt_bounds b hb).1 _ _)
      · intro rp' b hb hP
        unfold ensureEntry
        rcases hlk : rp'.lookup b.id with _ | e
        · simp only [hlk]
          by_cases hid : b.id = PRIMARY_ROUTE.id
          · simp only [if_pos hid]
            exact profileAll_set hP (by norm_num)
          · rcases allRoutes_idx_cases b hb with h | ⟨h0, h3⟩
            · exact absurd h hid
            · simp only [if_neg hid]
              have h0' : (0 : ℚ) ≤ ((findIndexById ALTERNATIVE_ROUTES b.id : Int) : ℚ) := by
                exact_mod_cast h0
              exact profileAll_set hP (by show _ ≠ (0:ℚ); nlinarith)
        · simpa only [hlk] using hP
  · simp only [h1, Bool.false_eq_true, if_false]
    unfold mockProfile
    apply foldl_invariant (ProfileAll (fun e => e.overall ≠ 0)) _ _ _ (profileAll_nil _)
    intro rp' b _ hP
    exact profileAll_set hP (by norm_num)

theorem pollProfile_overall_ne_zero (rp : RiskProfile)
    (hrp : ProfileAll (fun e => e.overall ≠ 0) rp)
    (po : Call AssessResponse) (ao : ℕ → Call AssessResponse) (rand : ℕ → ℚ) :
    ProfileAll (fun e => e.overall ≠ 0) (pollProfile rp po ao rand) := by
  unfold pollProfile
  apply foldIdx_invariant
  · rcases hg : assessGuard po with _ | a
    · simpa only [hg] using hrp
    · simp only [hg]
      exact profileAll_set hrp (pollPrimaryEntry_overall_ne_zero a)
  · intro rp' i b hb _ _ hP
    rcases hg : assessGuard (ao i) with _ | a
    · simpa only [hg] using hP
    · simp only [hg]
      exact profileAll_set hP (pollAltEntry_overall_ne_zero _ a _)

theorem triggerDisruptionProfile_overall_ne_zero (rp : RiskProfile)
    (hrp : ProfileAll (fun e => e.overall ≠ 0) rp)
    (po : Call AssessResponse) (oo : Call OptimizeResponse) (rand : ℕ → ℚ)
    (outerThrew : Bool) :
    ProfileAll (fun e => e.overall ≠ 0)
      (triggerDisruptionProfile rp po oo rand outerThrew) := by
  have hfb : ∀ rp', ProfileAll (fun e => e.overall ≠ 0) rp' →
      ProfileAll (fun e => e.overall ≠ 0) (optimizeFallbackProfile rp') := by
    intro rp' h
    exact profileAll_set (profileAll_set h (by norm_num)) (by norm_num)
  unfold triggerDisruptionProfile
  by_cases ho : outerThrew
  · simp only [ho, if_true]
    exact profileAll_set (profileAll_set hrp (by norm_num)) (by norm_num)
  · simp only [ho, if_false, Bool.false_eq_true]
    rw [triggerDisruptionSets_last]
    rcases hg : optimizeGuard oo with _ | routes
    · exact hfb rp hrp
    · unfold optimizeSuccessProfile
      have h1 : ProfileAll (fun e => e.overall ≠ 0)
          (foldIdx
            (fun acc index r =>
              acc.set (optRouteTargetId r index) (optRouteEntry r index (rand index)))
            rp 0 routes) := by
        apply foldIdx_invariant _ _ _ _ _ hrp
        intro rp' i b _ _ _ hP
        exact profileAll_set hP (optRouteEntry_overall_ne_zero b i _)
      rcases hlk :
          (foldIdx
            (fun acc index r =>
              acc.set (optRouteTargetId r index) (optRouteEntry r index (rand index)))
            rp 0 routes).lookup PRIMARY_ROUTE.id with _ | e
      · simpa only [hlk] using h1
      · simp only [hlk]
        exact profileAll_set h1 (max_ne_zero (by norm_num))

/-! ## The route-selection sort -/

theorem find?_min_of_sorted {α : Type} (le : α → α → Bool)
    (hrefl : ∀ a, le a a = true) (p : α → Bool) :
    ∀ (l : List α), List.Pairwise (fun a b => le a b = true) l →
      ∀ (x : α), l.find? p = some x → ∀ y ∈ l, p y = true → le x y = true := by
  intro l
  induction l with
  | nil => intro _ x hx; simp [List.find?] at hx
  | cons a t ih =>
    intro hs x hx y hy hpy
    rcases List.pairwise_cons.mp hs with ⟨ha, ht⟩
    by_cases hpa : p a = true
    · rw [List.find?_cons_of_pos t hpa] at hx
      injection hx with hx
      subst hx
      rcases List.mem_cons.mp hy with rfl | hy'
      · exact hrefl _
      · exact ha y hy'
    · rw [List.find?_cons_of_neg t hpa] at hx
      rcases List.mem_cons.mp hy with rfl | hy'
      · exact absurd hpy hpa
      · exact ih ht x hx y hy' hpy

theorem sortedRouteRisks_pairwise (rp : RiskProfile) :
    List.Pairwise (fun a b : Route × ℚ => decide (a.2 ≤ b.2) = true) (sortedRouteRisks rp) := by
  unfold sortedRouteRisks
  apply List.sorted_mergeSort
  · intro a b c hab hbc
    simp only [decide_eq_true_eq] at hab hbc ⊢
    exact le_trans hab hbc
  · intro a b
    simp only [Bool.or_eq_true, decide_eq_true_eq]
    exact le_total a.2 b.2

theorem sortedRouteRisks_perm (rp : RiskProfile) :
    (sortedRouteRisks rp).Perm (allRoutes.map (fun r => (r, sortRisk rp r.id))) :=
  List.mergeSort_perm _ _

theorem bestAlternative_spec (rp : RiskProfile) :
    bestAlternative rp ∈ ALTERNATIVE_ROUTES ∧
    ∀ r' ∈ ALTERNATIVE_ROUTES, sortRisk rp (bestAlternative rp).id ≤ sortRisk rp r'.id := by
  have hperm := sortedRouteRisks_perm rp
  have hpw := sortedRouteRisks_pairwise rp
  -- the sorted list contains a pair for every route
  have hmem : ∀ r ∈ allRoutes, (r, sortRisk rp r.id) ∈ sortedRouteRisks rp := by
    intro r hr
    exact hperm.mem_iff.mpr (List.mem_map.mpr ⟨r, hr, rfl⟩)
  -- the find? succeeds: the first alternative's pair passes the predicate
  have halt0 : ∀ r ∈ ALTERNATIVE_ROUTES, r ∈ allRoutes := by
    intro r hr; exact List.mem_cons.mpr (Or.inr hr)
  have ha0mem : (ALTERNATIVE_ROUTES.getD 0 PRIMARY_ROUTE) ∈ ALTERNATIVE_ROUTES := by decide
  have ha0ne : ((ALTERNATIVE_ROUTES.getD 0 PRIMARY_ROUTE).id == PRIMARY_ROUTE.id) = false := by
    decide
  have hex : ∃ z ∈ sortedRouteRisks rp, (!(z.1.id == PRIMARY_ROUTE.id)) = true := by
    refine ⟨((ALTERNATIVE_ROUTES.getD 0 PRIMARY_ROUTE),
             sortRisk rp (ALTERNATIVE_ROUTES.getD 0 PRIMARY_ROUTE).id), ?_, ?_⟩
    · exact hmem _ (halt0 _ ha0mem)
    · show (!((ALTERNATIVE_ROUTES.getD 0 PRIMARY_ROUTE).id == PRIMARY_ROUTE.id)) = true
      rw [ha0ne]
      rfl
  have hsome : ((sortedRouteRisks rp).find? (fun p => !(p.1.id == PRIMARY_ROUTE.id))).isSome := by
    rw [List.find?_isSome]
    obtain ⟨z, hz, hpz⟩ := hex
    exact ⟨z, hz, hpz⟩
  obtain ⟨x, hx⟩ := Option.isSome_iff_exists.mp hsome
  have hxmem : x ∈ sortedRouteRisks rp := List.mem_of_find?_eq_some hx
  have hxp := List.find?_some hx
  have hxid : x.1.id ≠ PRIMARY_ROUTE.id := by
    simpa using hxp
  -- x is the mapped pair of its route
  obtain ⟨r, hrmem, hreq⟩ := List.mem_map.mp (hperm.mem_iff.mp hxmem)
  have hbest : bestAlternative rp = x.1 := by
    unfold bestAlternative
    rw [hx]
    rfl
  have hralt : r ∈ ALTERNATIVE_ROUTES := by
    rcases List.mem_cons.mp hrmem with rfl | h
    · exact absurd (by rw [← hreq] at hxid; exact hxid) (by simp)
    · exact h
  constructor
  · rw [hbest, ← hreq]
    exact hralt
  · intro r' hr'
    have hr'mem : (r', sortRisk rp r'.id) ∈ sortedRouteRisks rp := hmem r' (halt0 r' hr')
    have hp' : (!((r', sortRisk rp r'.id).1.id == PRIMARY_ROUTE.id)) = true := by
      simpa using alt_ids_ne_primary r' hr'
    have hle := find?_min_of_sorted _ (fun a => by simp) _ _ hpw x hx _ hr'mem hp'
    have hle' : x.2 ≤ sortRisk rp r'.id := by simpa using hle
    rw [hbest]
    have hx2 : x.2 = sortRisk rp x.1.id := by rw [← hreq]
    rw [← hx2]
    exact hle'

theorem activeRouteIdAfterDisruption_eq (rp : RiskProfile) (activeRouteId : String) :
    activeRouteIdAfterDisruption rp activeRouteId = (bestAlternative rp).id := by
  unfold activeRouteIdAfterDisruption
  by_cases h : (bestAlternative rp).id ≠ activeRouteId
  · simp [h]
  · push_neg at h
    simp [h]

theorem sortRisk_eq_recorded (rp : RiskProfile)
    (h : ∀ p ∈ rp, p.2.overall ≠ 0) (id : String) :
    sortRisk rp id = recordedRiskOrOne rp id := by
  unfold sortRisk recordedRiskOrOne
  rcases hlk : rp.lookup id with _ | e
  · simp [jsOrOpt]
  · obtain ⟨q, hq, hq2⟩ := lookup_mem rp id e hlk
    have : e.overall ≠ 0 := hq2 ▸ h q hq
    simp [jsOrOpt, this]

/-! ## Claim theorems -/

/-- Claim C4: during the initial assessment, a successful backend assessment
for the alternative route at index `i` yields overall risk
`min(0.85, max(0.2, max(0.15, s) + i*0.06 + j))` with `s` the backend score
(`0.2` when absent or zero) and jitter `j = r * 0.04 ∈ [0, 0.04)` for the
random draw `r ∈ [0, 1)`. -/
theorem initialAlt_overall_formula (c : Call AssessResponse) (a : Assessment)
    (routeIndex : Int) (r : ℚ) (hg : assessGuard c = some a)
    (h0 : 0 ≤ r) (h1 : r < 1) :
    (initialAltEntry routeIndex c r).overall =
      min 0.85 (max 0.2
        (max 0.15 (jsOrOpt a.overall_risk_score 0.2) + (routeIndex : ℚ) * 0.06 + r * 0.04)) ∧
    0 ≤ r * 0.04 ∧ r * 0.04 < 0.04 := by
  refine ⟨?_, by nlinarith, by nlinarith⟩
  simp only [initialAltEntry, hg]

theorem initialAlt_overall_formula_witness :
    assessGuard (Call.ok (⟨true, some ⟨none, ⟨none, none, none⟩, ⟨none, none, none⟩⟩⟩ :
        AssessResponse)) = some ⟨none, ⟨none, none, none⟩, ⟨none, none, none⟩⟩ ∧
    ((initialAltEntry 0
        (Call.ok ⟨true, some ⟨none, ⟨none, none, none⟩, ⟨none, none, none⟩⟩⟩)
        (1/2)).overall =
      min 0.85 (max 0.2
        (max 0.15 (jsOrOpt (none : Option ℚ) 0.2) + ((0 : Int) : ℚ) * 0.06 + (1/2) * 0.04)) ∧
      0 ≤ (1/2 : ℚ) * 0.04 ∧ (1/2 : ℚ) * 0.04 < 0.04) :=
  ⟨rfl,
   initialAlt_overall_formula
     (Call.ok ⟨true, some ⟨none, ⟨none, none, none⟩, ⟨none, none, none⟩⟩⟩)
     ⟨none, ⟨none, none, none⟩, ⟨none, none, none⟩⟩ 0 (1/2) rfl (by norm_num) (by norm_num)⟩

/-- Claim C5: when the backend agent query fails (throws or yields no
successful, non-empty response) and no Perplexity API key is configured,
`getPerplexityAnalysis` swallows the error and returns the canned
recommendation sentence (the one recommending the 32%-risk alternative). -/
theorem getPerplexityAnalysis_mock_fallback (agent : Call AgentResponse)
    (directResult : String) (h : agentAnswer agent = none) :
    getPerplexityAnalysis agent none directResult = MOCK_RECOMMENDATION := by
  unfold getPerplexityAnalysis
  rw [h]
  rfl

theorem getPerplexityAnalysis_mock_fallback_witness :
    agentAnswer Call.thrown = none ∧
    getPerplexityAnalysis Call.thrown none "unused" = MOCK_RECOMMENDATION :=
  ⟨rfl, getPerplexityAnalysis_mock_fallback Call.thrown "unused" rfl⟩

/-- Claim C6: `addEvent` appends exactly one timestamped entry at the end of
the event history, leaving every existing entry unchanged in place and
order; the displayed history is a reversed copy, so the list itself is never
mutated. -/
theorem addEvent_appends_single_entry (history : List EventLog) (message : String) (now : ℕ) :
    (addEvent history message now).length = history.length + 1 ∧
    (addEvent history message now).take history.length = history ∧
    (addEvent history message now).drop history.length = [⟨message, now⟩] ∧
    historyPageDisplayed history = history.reverse := by
  refine ⟨?_, ?_, ?_, rfl⟩
  · simp [addEvent]
  · simp only [addEvent]
    exact List.take_left history [(⟨message, now⟩ : EventLog)]
  · simp only [addEvent]
    exact List.drop_left history [(⟨message, now⟩ : EventLog)]

/-- Claim C7: the dashboard polls exactly when a user configuration exists
and the disruption flag is set, on a fixed 10000 ms interval whose tick is
the re-fetch/re-assess update `pollProfile`; the effect's only cleanup is
clearing that interval (no fetch cancellation exists). -/
theorem pollingEffect_ten_second_interval (userConfig : Option UserConfiguration) (flag : Bool) :
    ((pollingEffect userConfig flag).isSome ↔ userConfig.isSome = true ∧ flag = true) ∧
    (∀ sub, pollingEffect userConfig flag = some sub →
      sub.delayMs = 10000 ∧ sub.body = pollProfile) ∧
    pollingCleanup (pollingEffect userConfig flag) = none := by
  refine ⟨?_, ?_, rfl⟩
  · unfold pollingEffect
    rcases userConfig with _ | cfg <;> cases flag <;> simp
  · intro sub hsub
    unfold pollingEffect at hsub
    rcases userConfig with _ | cfg <;> cases flag <;> simp at hsub
    rw [← hsub]
    exact ⟨rfl, rfl⟩

theorem pollingEffect_ten_second_interval_witness :
    pollingEffect (some ⟨"Semiconductors", "Taiwan", "Los Angeles"⟩) true =
      some ⟨10000, pollProfile⟩ ∧
    (⟨10000, pollProfile⟩ : IntervalSub).delayMs = 10000 ∧
    (⟨10000, pollProfile⟩ : IntervalSub).body = pollProfile :=
  ⟨rfl,
   (pollingEffect_ten_second_interval (some ⟨"Semiconductors", "Taiwan", "Los Angeles"⟩) true).2.1
     ⟨10000, pollProfile⟩ rfl⟩

/-- Claim C8: for every random draw `r ∈ [0, 1)`,
`getRandomDisruptionEvent` returns `DISRUPTION_EVENTS[⌊r * 8⌋]`, which is a
defined element of the eight-element list — the index never goes out of
bounds. -/
theorem getRandomDisruptionEvent_in_bounds (r : ℚ) (h0 : 0 ≤ r) (h1 : r < 1) :
    getRandomDisruptionEvent r = DISRUPTION_EVENTS.get? (⌊r * 8⌋).toNat ∧
    (⌊r * 8⌋).toNat < DISRUPTION_EVENTS.length ∧
    (getRandomDisruptionEvent r).isSome := by
  have hlen : ((DISRUPTION_EVENTS.length : ℕ) : ℚ) = 8 := by norm_num [DISRUPTION_EVENTS]
  have hge : (0 : ℤ) ≤ ⌊r * 8⌋ := Int.floor_nonneg.mpr (by positivity)
  have hlt : ⌊r * 8⌋ < 8 := Int.floor_lt.mpr (by push_cast; nlinarith)
  have heq : getRandomDisruptionEvent r = DISRUPTION_EVENTS.get? (⌊r * 8⌋).toNat := by
    unfold getRandomDisruptionEvent
    rw [hlen]
    simp only [hge, if_pos]
  have hnat : (⌊r * 8⌋).toNat < DISRUPTION_EVENTS.length := by
    have h8 : DISRUPTION_EVENTS.length = 8 := by norm_num [DISRUPTION_EVENTS]
    omega
  refine ⟨heq, hnat, ?_⟩
  rw [heq, List.get?_eq_get hnat]
  rfl

theorem getRandomDisruptionEvent_in_bounds_witness :
    (0 : ℚ) ≤ 1/2 ∧ (1/2 : ℚ) < 1 ∧ (getRandomDisruptionEvent (1/2)).isSome :=
  ⟨by norm_num, by norm_num,
   (getRandomDisruptionEvent_in_bounds (1/2) (by norm_num) (by norm_num)).2.2⟩

/-- Claim C9: for every `activeRouteId` string, the derived `activeRoute`
is a defined route of `allRoutes`: the route with that id when one exists,
and `PRIMARY_ROUTE` otherwise — rendering never receives `undefined`. -/
theorem activeRoute_always_defined (activeRouteId : String) :
    activeRoute activeRouteId ∈ allRoutes ∧
    ((∃ r ∈ allRoutes, r.id = activeRouteId) →
      (activeRoute activeRouteId).id = activeRouteId) ∧
    ((∀ r ∈ allRoutes, r.id ≠ activeRouteId) → activeRoute activeRouteId = PRIMARY_ROUTE) := by
  unfold activeRoute
  rcases hf : allRoutes.find? (fun r => r.id == activeRouteId) with _ | r
  · rw [hf]
    rw [List.find?_eq_none] at hf
    simp only [Option.getD_none]
    refine ⟨List.mem_cons_self _ _, ?_, fun _ => by trivial⟩
    rintro ⟨r, hr, hid⟩
    have := hf r hr
    rw [hid] at this
    simp at this
  · rw [hf]
    simp only [Option.getD_some]
    have hmem := List.mem_of_find?_eq_some hf
    have hid := List.find?_some hf
    have hid' : r.id = activeRouteId := by simpa using hid
    exact ⟨hmem, fun _ => hid', fun hall => absurd hid' (hall r hmem)⟩

theorem activeRoute_always_defined_witness :
    (∃ r ∈ allRoutes, r.id = "TW-SG-LA") ∧ (activeRoute "TW-SG-LA").id = "TW-SG-LA" :=
  ⟨by decide, (activeRoute_always_defined "TW-SG-LA").2.1 (by decide)⟩

/-- Claim C10: for every user configuration, the shipment identifier the
dashboard computes and the one the history page displays are the same
string: `"ARK-SC-"` followed by the upper-cased first three characters of
the product name. -/
theorem shipmentId_dashboard_history_agree (cfg : UserConfiguration) :
    (personalizedShipment (some cfg)).id = historyShipmentId (some cfg) ∧
    historyShipmentId (some cfg) = "ARK-SC-" ++ (jsSlice cfg.product 3).toUpper := by
  exact ⟨rfl, rfl⟩

/-- Claim C1: for every risk profile held when the disruption handler runs
(every recorded overall value is nonzero — which every write of the
dashboard guarantees, see the `overall_ne_zero` lemmas), `triggerDisruption`
makes an alternative (non-primary) route the active route, namely one whose
recorded overall risk — `1.0` for a route with no recorded risk — is
minimal among the alternatives; this is the first non-primary route of the
ascending stable sort of all five routes. -/
theorem triggerDisruption_selects_lowest_risk_alternative (rp : RiskProfile)
    (activeRouteId : String) (h : ∀ p ∈ rp, p.2.overall ≠ 0) :
    ∃ r ∈ ALTERNATIVE_ROUTES,
      activeRouteIdAfterDisruption rp activeRouteId = r.id ∧
      ∀ r' ∈ ALTERNATIVE_ROUTES,
        recordedRiskOrOne rp r.id ≤ recordedRiskOrOne rp r'.id := by
  obtain ⟨hmem, hmin⟩ := bestAlternative_spec rp
  refine ⟨bestAlternative rp, hmem, activeRouteIdAfterDisruption_eq rp activeRouteId, ?_⟩
  intro r' hr'
  rw [← sortRisk_eq_recorded rp h, ← sortRisk_eq_recorded rp h]
  exact hmin r' hr'

theorem triggerDisruption_selects_lowest_risk_alternative_witness :
    (∀ p ∈ ([] : RiskProfile), p.2.overall ≠ 0) ∧
    ∃ r ∈ ALTERNATIVE_ROUTES,
      activeRouteIdAfterDisruption [] "TW-LA-DIRECT" = r.id ∧
      ∀ r' ∈ ALTERNATIVE_ROUTES,
        recordedRiskOrOne [] r.id ≤ recordedRiskOrOne [] r'.id :=
  ⟨fun p hp => absurd hp (List.not_mem_nil p),
   triggerDisruption_selects_lowest_risk_alternative [] "TW-LA-DIRECT"
     (fun p hp => absurd hp (List.not_mem_nil p))⟩

/-- Claim C2 counterexample: with the primary route's risk recorded as
`0.15`, the assess call and the optimize call both returning unsuccessful
responses and no outer error, `triggerDisruption` leaves the primary
route's entry at overall `0.15`, which is not `≥ 0.75`. -/
theorem triggerDisruption_primary_can_stay_low :
    ((triggerDisruptionProfile [(PRIMARY_ROUTE.id, ⟨0.15, ⟨0.1, 0.08, 0.12⟩⟩)]
        (Call.ok ⟨false, none⟩) (Call.ok ⟨false, none, none, none⟩) (fun _ => 0)
        false).lookup PRIMARY_ROUTE.id).map RiskEntry.overall = some 0.15 ∧
    ¬ ((0.75 : ℚ) ≤ 0.15) := by
  constructor
  · simp [triggerDisruptionProfile, triggerDisruptionSets, optimizeGuard,
      optimizeFallbackProfile, alt0Id, alt1Id, RiskProfile.set, RiskProfile.lookup,
      List.getLastD, PRIMARY_ROUTE, ALTERNATIVE_ROUTES]
  · norm_num

/-- Claim C2 (amended): the primary route's entry ends with overall risk
`≥ 0.75` exactly on the outcomes where the last profile store raises it:
when the optimize call succeeds with a route list (the profile already
holding a primary entry, which the initial load guarantees), or when an
error escapes to the outer catch.  On other outcomes (both calls returning
unsuccessful responses, or the optimize call failing) the last store spreads
the stale closure profile, so the primary entry keeps its prior value. -/
theorem triggerDisruption_primary_risk_high_cases (rp : RiskProfile)
    (po : Call AssessResponse) (oo : Call OptimizeResponse) (rand : ℕ → ℚ)
    (outerThrew : Bool)
    (hcase : (∃ routes, optimizeGuard oo = some routes ∧ (rp.lookup PRIMARY_ROUTE.id).isSome)
             ∨ outerThrew = true) :
    ∃ e, (triggerDisruptionProfile rp po oo rand outerThrew).lookup PRIMARY_ROUTE.id = some e ∧
      (0.75 : ℚ) ≤ e.overall := by
  unfold triggerDisruptionProfile
  by_cases ho : outerThrew
  · simp only [ho, if_true]
    unfold disruptionCatchProfile
    have hne : PRIMARY_ROUTE.id ≠ alt0Id := by decide
    refine ⟨⟨0.78, ⟨0.3, 0.9, 0.5⟩⟩, ?_, by norm_num⟩
    rw [lookup_set_ne _ _ _ _ hne, lookup_set_self]
  · rcases hcase with ⟨routes, hg, hsome⟩ | hoT
    · simp only [ho, if_false, Bool.false_eq_true]
      rw [triggerDisruptionSets_last, hg]
      unfold optimizeSuccessProfile
      have hF : ((foldIdx
          (fun acc index r =>
            acc.set (optRouteTargetId r index) (optRouteEntry r index (rand index)))
          rp 0 routes).lookup PRIMARY_ROUTE.id).isSome = true := by
        apply foldIdx_invariant
          (fun rp' => ((rp'.lookup PRIMARY_ROUTE.id).isSome = true)) _ _ _ _ hsome
        intro rp' i b _ _ _ hP
        exact lookup_isSome_set _ _ _ _ hP
      rcases hlk : (foldIdx
          (fun acc index r =>
            acc.set (optRouteTargetId r index) (optRouteEntry r index (rand index)))
          rp 0 routes).lookup PRIMARY_ROUTE.id with _ | e
      · rw [hlk] at hF; simp at hF
      · simp only [hlk]
        exact ⟨⟨max 0.75 e.overall, e.factors⟩, lookup_set_self _ _ _, le_max_left _ _⟩
    · exact absurd hoT ho

theorem triggerDisruption_primary_risk_high_cases_witness :
    optimizeGuard (Call.ok (⟨true, some [], none, none⟩ : OptimizeResponse)) = some [] ∧
    (([(PRIMARY_ROUTE.id, ⟨0.15, ⟨0.1, 0.08, 0.12⟩⟩)] :
        RiskProfile).lookup PRIMARY_ROUTE.id).isSome = true ∧
    ∃ e, (triggerDisruptionProfile [(PRIMARY_ROUTE.id, ⟨0.15, ⟨0.1, 0.08, 0.12⟩⟩)]
        (Call.ok ⟨false, none⟩) (Call.ok ⟨true, some [], none, none⟩) (fun _ => 0)
        false).lookup PRIMARY_ROUTE.id = some e ∧ (0.75 : ℚ) ≤ e.overall :=
  ⟨rfl, rfl,
   triggerDisruption_primary_risk_high_cases _ _ _ _ _ (Or.inl ⟨[], rfl, rfl⟩)⟩

/-- Claim C3 counterexample: a poll tick stores the backend's
`overall_risk_score` unclamped, so a successful assessment reporting `1.5`
puts an overall risk of `1.5 > 1` into the profile. -/
theorem poll_stores_out_of_range_risk :
    ∃ e, (pollProfile []
        (Call.ok ⟨true, some ⟨some (3/2), ⟨none, none, none⟩, ⟨none, none, none⟩⟩⟩)
        (fun _ => Call.thrown) (fun _ => 0)).lookup PRIMARY_ROUTE.id = some e ∧
      1 < e.overall := by
  refine ⟨⟨3/2, ⟨0.1, 0.1, 0.1⟩⟩, ?_, by norm_num⟩
  norm_num [pollProfile, assessGuard, pollPrimaryEntry, jsOrOpt, jsOrChain, foldIdx,
    ALTERNATIVE_ROUTES, RiskProfile.set, RiskProfile.lookup]

/-- Claim C3 (amended): every risk value the dashboard stores — by the
initial assessment (including all its fallback paths), a poll tick, and
every store of the disruption handler — lies in `[0, 1]`, provided the
profile it starts from is in range, every backend-supplied risk number lies
in `[0, 1]`, and the optimization response lists at most the five requested
routes.  Without that proviso the claim fails: backend values are stored
unclamped on the polling and disruption paths. -/
theorem riskProfile_values_in_unit_interval
    (healthOk routesBlockThrew : Bool)
    (po0 : Call AssessResponse) (ao0 : ℕ → Call AssessResponse) (rand0 : ℕ → ℚ)
    (rp : RiskProfile) (po1 : Call AssessResponse) (ao1 : ℕ → Call AssessResponse)
    (rand1 : ℕ → ℚ) (po2 : Call AssessResponse) (oo : Call OptimizeResponse)
    (rand2 : ℕ → ℚ) (outerThrew : Bool)
    (hpo0 : assessCallInUnit po0) (hao0 : ∀ i, assessCallInUnit (ao0 i))
    (hrp : ProfileAll entryInUnit rp)
    (hpo1 : assessCallInUnit po1) (hao1 : ∀ i, assessCallInUnit (ao1 i))
    (hpo2 : assessCallInUnit po2) (hoo : optimizeCallBounded oo) :
    ProfileAll entryInUnit (fetchInitialDataProfile healthOk routesBlockThrew po0 ao0 rand0) ∧
    ProfileAll entryInUnit (pollProfile rp po1 ao1 rand1) ∧
    (∀ s ∈ triggerDisruptionSets rp po2 oo rand2, ProfileAll entryInUnit s) ∧
    ProfileAll entryInUnit (triggerDisruptionProfile rp po2 oo rand2 outerThrew) :=
  ⟨fetchInitialDataProfile_inUnit _ _ _ hpo0 _ hao0 _,
   pollProfile_inUnit _ hrp _ hpo1 _ hao1 _,
   triggerDisruptionSets_inUnit _ hrp _ hpo2 _ hoo _,
   triggerDisruptionProfile_inUnit _ hrp _ hpo2 _ hoo _ _⟩

theorem riskProfile_values_in_unit_interval_witness :
    ProfileAll entryInUnit
      (fetchInitialDataProfile false false Call.thrown (fun _ => Call.thrown) (fun _ => 0)) ∧
    ProfileAll entryInUnit (pollProfile [] Call.thrown (fun _ => Call.thrown) (fun _ => 0)) ∧
    (∀ s ∈ triggerDisruptionSets [] Call.thrown Call.thrown (fun _ => 0),
      ProfileAll entryInUnit s) ∧
    ProfileAll entryInUnit (triggerDisruptionProfile [] Call.thrown Call.thrown (fun _ => 0) false) :=
  riskProfile_values_in_unit_interval false false Call.thrown (fun _ => Call.thrown)
    (fun _ => 0) [] Call.thrown (fun _ => Call.thrown) (fun _ => 0) Call.thrown Call.thrown
    (fun _ => 0) false
    (fun _a h => nomatch h) (fun _ _a h => nomatch h) (profileAll_nil _)
    (fun _a h => nomatch h) (fun _ _a h => nomatch h)
    (fun _a h => nomatch h) (fun _routes h => nomatch h)
